import Mathlib

/-!
Verification of the Interactive Block Diagram Canvas repository.

Shallow embedding of the diagram data model and the operations on it:
the diagram utilities (`diagramToNodes`, `connectionsToEdges`,
`nodesToDiagram`, `generateDefaultDiagram`, `blockPositions`), the canvas
editing controller (`onConnect`, `handleNodeUpdate`, `handleNodeDelete`
in DiagramCanvas.jsx, `handleSave` / `handleCancel` in BlockNode.jsx),
the generation edge function's request validation and upstream-error
mapping, and the `blockStyles` table of BlockNode.jsx.

JavaScript objects are embedded as Lean structures; optional JS fields
become `Option`; the JS `annotation` field is rendered as the field
`annot` (a plain renaming, same meaning).
-/

namespace BlockDiagram

/-- A 2-D coordinate, as used in `blockPositions` and node `position`. -/
structure Coord where
  x : Int
  y : Int
deriving DecidableEq, Repr

/-- Canonical diagram block: JS object
`{id, type, title, components, annotation}` (the JS `annotation` field is
the Lean field `annot`). -/
structure Block where
  id : String
  type : String
  title : String
  components : List String
  annot : Option String := none
deriving DecidableEq, Repr

/-- Canonical connection: JS object `{source, target, label}` with
`label` optional. -/
structure Connection where
  source : String
  target : String
  label : Option String := none
deriving DecidableEq, Repr

/-- The canonical diagram aggregate `{blocks, connections}`. -/
structure Diagram where
  blocks : List Block
  connections : List Connection
deriving DecidableEq, Repr

/-- The five block categories of the tool schema's `type` enum. -/
def enumTypes : List String :=
  ["power", "inputs", "processing", "outputs", "peripherals"]

/-- A React Flow edge label value: in JS this may be a plain string or a
rich object (e.g. a React element); `nodesToDiagram` keeps it only when
it is a plain string. -/
inductive EdgeLabel where
  | str (s : String)
  | rich
deriving DecidableEq, Repr

/-- The `data` payload of a React Flow node produced by `diagramToNodes`
(the JS `annotation` field is the Lean field `annot`). -/
structure NodeData where
  type : String
  title : String
  components : List String
  annot : Option String := none
deriving DecidableEq, Repr

/-- A React Flow node as built by `diagramToNodes`. -/
structure Node where
  id : String
  type : String
  position : Coord
  data : NodeData
  draggable : Bool
deriving DecidableEq, Repr

/-- Edge stroke style, from `defaultEdgeOptions` / `connectionsToEdges`. -/
structure EdgeStyle where
  stroke : String
  strokeWidth : Int
deriving DecidableEq, Repr

/-- Edge arrowhead marker. -/
structure EdgeMarker where
  mtype : String
  color : String
deriving DecidableEq, Repr

/-- A React Flow edge as built by `connectionsToEdges` or by the connect
gesture. -/
structure Edge where
  id : String
  source : String
  target : String
  label : Option EdgeLabel
  type : String
  animated : Bool
  style : EdgeStyle
  markerEnd : EdgeMarker
deriving DecidableEq, Repr

/-- The `blockPositions` lookup table of diagramUtils: category to fixed
coordinate; `none` models a missing key of the JS object literal. -/
def blockPositions (t : String) : Option Coord :=
  if t = "power" then some ⟨50, 200⟩
  else if t = "inputs" then some ⟨350, 50⟩
  else if t = "processing" then some ⟨650, 200⟩
  else if t = "outputs" then some ⟨950, 50⟩
  else if t = "peripherals" then some ⟨650, 400⟩
  else none

/-- The position assigned to a block of category `t`:
`blockPositions[block.type] || { x: 400, y: 200 }`. -/
def nodePosition (t : String) : Coord :=
  (blockPositions t).getD ⟨400, 200⟩

/-- The node built from one block by `diagramToNodes`. -/
def blockNode (block : Block) : Node :=
  { id := block.id
    type := "block"
    position := nodePosition block.type
    data :=
      { type := block.type
        title := block.title
        components := block.components
        annot := block.annot }
    draggable := true }

/-- `diagramToNodes` of diagramUtils: one node per block. -/
def diagramToNodes (diagram : Diagram) : List Node :=
  diagram.blocks.map blockNode

/-- The edge built from connection `conn` at ordinal `index` by
`connectionsToEdges`. -/
def connectionEdge (index : Nat) (conn : Connection) : Edge :=
  { id := "edge-" ++ conn.source ++ "-" ++ conn.target ++ "-" ++ toString index
    source := conn.source
    target := conn.target
    label := conn.label.map EdgeLabel.str
    type := "smoothstep"
    animated := true
    style := ⟨"hsl(199 89% 48%)", 2⟩
    markerEnd := ⟨"arrowclosed", "hsl(199 89% 48%)"⟩ }

/-- Index-passing rendering of `connections.map((conn, index) => ...)`. -/
def connectionsToEdgesAux : Nat → List Connection → List Edge
  | _, [] => []
  | i, c :: cs => connectionEdge i c :: connectionsToEdgesAux (i + 1) cs

/-- `connectionsToEdges` of diagramUtils. -/
def connectionsToEdges (connections : List Connection) : List Edge :=
  connectionsToEdgesAux 0 connections

/-- The block recovered from a node by `nodesToDiagram`. -/
def nodeToBlock (node : Node) : Block :=
  { id := node.id
    type := node.data.type
    title := node.data.title
    components := node.data.components
    annot := node.data.annot }

/-- The connection recovered from an edge by `nodesToDiagram`:
`label: typeof edge.label === "string" ? edge.label : undefined`. -/
def edgeToConnection (edge : Edge) : Connection :=
  { source := edge.source
    target := edge.target
    label :=
      match edge.label with
      | some (EdgeLabel.str s) => some s
      | _ => none }

/-- `nodesToDiagram` of diagramUtils. -/
def nodesToDiagram (nodes : List Node) (edges : List Edge) : Diagram :=
  { blocks := nodes.map nodeToBlock
    connections := edges.map edgeToConnection }

/-- `generateDefaultDiagram` of diagramUtils: the built-in template. -/
def generateDefaultDiagram : Diagram :=
  { blocks :=
      [ { id := "power-1", type := "power", title := "Power Supply"
          components := ["Battery", "Voltage Regulator"] }
      , { id := "inputs-1", type := "inputs", title := "Inputs Block"
          components := ["Sensor Module", "Button Interface"] }
      , { id := "processing-1", type := "processing"
          title := "Control and Processing"
          components := ["Microcontroller", "Memory"] }
      , { id := "outputs-1", type := "outputs", title := "Outputs Block"
          components := ["LED Indicator", "Display"] }
      , { id := "peripherals-1", type := "peripherals"
          title := "Other Peripherals"
          components := ["Debug Interface", "External Connector"] } ]
    connections :=
      [ { source := "power-1", target := "processing-1", label := some "VCC" }
      , { source := "inputs-1", target := "processing-1", label := some "Data" }
      , { source := "processing-1", target := "outputs-1", label := some "Control" }
      , { source := "processing-1", target := "peripherals-1", label := some "I/O" } ] }

/-- A diagram satisfying the generation schema: exactly 5 blocks, each
with `type` in the five-value enum (presence of `id`, `title`,
`components` and string-or-absent `label` is carried by the types). -/
def schemaValid (d : Diagram) : Prop :=
  d.blocks.length = 5 ∧ ∀ b ∈ d.blocks, b.type ∈ enumTypes

instance (d : Diagram) : Decidable (schemaValid d) := by
  unfold schemaValid
  infer_instance

/-- The working set owned by DiagramCanvas: the live node and edge
lists. -/
structure CanvasState where
  nodes : List Node
  edges : List Edge
deriving DecidableEq, Repr

/-- The `defaultEdgeOptions` constant of DiagramCanvas.jsx. -/
def defaultEdgeStyle : EdgeStyle := ⟨"hsl(199 89% 48%)", 2⟩

/-- The arrowhead of `defaultEdgeOptions`. -/
def defaultEdgeMarker : EdgeMarker := ⟨"arrowclosed", "hsl(199 89% 48%)"⟩

/-- The parameters of a connect gesture delivered to `onConnect`. -/
structure ConnectParams where
  source : String
  target : String
deriving DecidableEq, Repr

/-- The new edge built from a connect gesture: the spread
`{...params, ...defaultEdgeOptions}` in `onConnect` supplies the default
style from `defaultEdgeOptions` of DiagramCanvas.jsx. -/
def connectEdge (params : ConnectParams) : Edge :=
  { id := "edge-" ++ params.source ++ "-" ++ params.target
    source := params.source
    target := params.target
    label := none
    type := "smoothstep"
    animated := true
    style := defaultEdgeStyle
    markerEnd := defaultEdgeMarker }

/-- Modelled from the spec: React Flow's `addEdge`, invoked by
`onConnect` of DiagramCanvas.jsx, is library code absent from this
repository's sources. Per the spec a new Edge is appended with default
style and duplicate edges with the same source/target are permitted
(not deduplicated). -/
def addEdge (params : ConnectParams) (eds : List Edge) : List Edge :=
  eds ++ [connectEdge params]

/-- `onConnect` of DiagramCanvas.jsx: replaces the edge set with
`addEdge({...params, ...defaultEdgeOptions}, eds)`; nodes untouched. -/
def onConnect (st : CanvasState) (params : ConnectParams) : CanvasState :=
  { st with edges := addEdge params st.edges }

/-- The edited fields collected by BlockNode's edit mode (the JS
`annotation` field is the Lean field `annot`). -/
structure EditFields where
  title : String
  components : List String
  annot : Option String
deriving DecidableEq, Repr

/-- The local edit-mode state of BlockNode.jsx. -/
structure EditState where
  editTitle : String
  editComponents : List String
  editAnnot : String
deriving DecidableEq, Repr

/-- `handleSave` of BlockNode.jsx builds the update payload
`{title: editTitle, components: editComponents,
annotation: editAnnotation || undefined}` (empty string is falsy). -/
def handleSaveFields (es : EditState) : EditFields :=
  { title := es.editTitle
    components := es.editComponents
    annot := if es.editAnnot = "" then none else some es.editAnnot }

/-- The merge `{ ...node, data: { ...node.data, ...newData } }` applied
by `handleNodeUpdate` to the matching node: `newData` always carries
`title`, `components` and `annotation` keys, so those three data fields
are overwritten and `data.type` is kept. -/
def mergeNodeData (node : Node) (newData : EditFields) : Node :=
  { node with
    data :=
      { type := node.data.type
        title := newData.title
        components := newData.components
        annot := newData.annot } }

/-- `handleNodeUpdate` of DiagramCanvas.jsx on the node list. -/
def handleNodeUpdate (nodes : List Node) (nodeId : String)
    (newData : EditFields) : List Node :=
  nodes.map fun node =>
    if node.id = nodeId then mergeNodeData node newData else node

/-- Confirming an edit: `handleSave` calls `onUpdate(id, ...)`, which
runs `handleNodeUpdate`; edges are not touched. -/
def confirmEdit (st : CanvasState) (nodeId : String) (es : EditState) :
    CanvasState :=
  { st with nodes := handleNodeUpdate st.nodes nodeId (handleSaveFields es) }

/-- `handleCancel` of BlockNode.jsx resets only the local edit-mode
state (`editTitle`, `editComponents`, `editAnnotation`, `isEditing`); it
never calls `onUpdate`, so the working set is unchanged. -/
def cancelEdit (st : CanvasState) : CanvasState :=
  st

/-- `handleNodeDelete` of DiagramCanvas.jsx: drop the node with the
given id and every edge whose source or target equals it. -/
def handleNodeDelete (st : CanvasState) (nodeId : String) : CanvasState :=
  { nodes := st.nodes.filter fun node => node.id ≠ nodeId
    edges := st.edges.filter fun edge =>
      edge.source ≠ nodeId ∧ edge.target ≠ nodeId }

/-- The `blockStyles` table of BlockNode.jsx: exactly five keys, no
fallback; `none` models a missing key (JS `undefined`). -/
structure BlockStyle where
  className : String
  icon : String
deriving DecidableEq, Repr

/-- The `blockStyles` object literal of BlockNode.jsx. -/
def blockStyles (t : String) : Option BlockStyle :=
  if t = "power" then some ⟨"block-power", "⚡"⟩
  else if t = "inputs" then some ⟨"block-inputs", "📥"⟩
  else if t = "processing" then some ⟨"block-processing", "🔧"⟩
  else if t = "outputs" then some ⟨"block-outputs", "📤"⟩
  else if t = "peripherals" then some ⟨"block-peripherals", "🔌"⟩
  else none

/-- Rendering a BlockNode dereferences `style.className` with
`style = blockStyles[data.type]` and no guard: the render succeeds
(returns the class name used) exactly when the lookup succeeds; `none`
is the undefined-dereference failure (JS TypeError). -/
def renderBlockNode (data : NodeData) : Option String :=
  (blockStyles data.type).map fun style => style.className

end BlockDiagram

namespace GenerateDiagram

/-- A JavaScript value, as far as the edge function's `description`
check inspects it (`!description || typeof description !== "string"`). -/
inductive JVal where
  | undef
  | null
  | str (s : String)
  | num (n : Int)
  | jbool (b : Bool)
  | obj
deriving DecidableEq, Repr

/-- JS truthiness of the values `JVal` covers (NaN excluded: the check
never receives one from JSON parsing of interest here). -/
def jsTruthy : JVal → Bool
  | JVal.undef => false
  | JVal.null => false
  | JVal.str s => s ≠ ""
  | JVal.num n => n ≠ 0
  | JVal.jbool b => b
  | JVal.obj => true

/-- `typeof v === "string"`. -/
def isString : JVal → Bool
  | JVal.str _ => true
  | _ => false

/-- What the serve handler does next after the description check:
either respond immediately (status, error message of the
`{error: ...}` body) or proceed to the model-gateway request. -/
inductive GenStep where
  | respond (status : Nat) (errMsg : String)
  | callModel (description : String)
deriving DecidableEq, Repr

/-- The description check of the serve handler:
`if (!description || typeof description !== "string")` respond 400
`Description is required`; otherwise proceed to the gateway fetch. -/
def handleDescription (v : JVal) : GenStep :=
  if !jsTruthy v || !isString v then
    GenStep.respond 400 "Description is required"
  else
    GenStep.callModel
      (match v with
       | JVal.str s => s
       | _ => "")

/-- Whether an HTTP status is `response.ok` (2xx). -/
def statusOk (status : Nat) : Bool :=
  200 ≤ status && status ≤ 299

/-- The `!response.ok` branch of the serve handler: map the upstream
status to the endpoint's (status, error-message) response. -/
def mapUpstreamFailure (status : Nat) : Nat × String :=
  if status = 429 then
    (429, "Rate limit exceeded. Please try again later.")
  else if status = 402 then
    (402, "Usage limit reached. Please add credits.")
  else
    (500, "Failed to generate diagram")

/-- The serve handler's treatment of the gateway response status:
`none` when `response.ok` (processing continues), otherwise the mapped
failure response. -/
def handleUpstreamStatus (status : Nat) : Option (Nat × String) :=
  if statusOk status then none else some (mapUpstreamFailure status)

/-- A candidate block as parsed from the model's tool-call arguments:
every field may be absent. -/
structure CandidateBlock where
  id : Option String := none
  type : Option String := none
  title : Option String := none
  components : Option (List String) := none
deriving DecidableEq, Repr

/-- A candidate connection as parsed from the tool-call arguments. -/
structure CandidateConn where
  source : Option String := none
  target : Option String := none
  label : Option String := none
deriving DecidableEq, Repr

/-- The parsed `diagramData`; `blocks`/`connections` may be absent. -/
structure CandidateDiagram where
  blocks : Option (List CandidateBlock) := none
  connections : Option (List CandidateConn) := none
deriving DecidableEq, Repr

/-- The result of the serve handler's validation stage. -/
inductive HandlerResult where
  | respond (status : Nat) (errMsg : String)
  | ok (diagram : CandidateDiagram)
deriving DecidableEq, Repr

/-- The serve handler's validation of `diagramData`:
`if (!diagramData.blocks || diagramData.blocks.length !== 5)` respond
500, else return `{ diagram: diagramData }` unchanged (a JS array is
truthy even when empty, so `[]` reaches the length check). -/
def finalizeDiagram (d : CandidateDiagram) : HandlerResult :=
  match d.blocks with
  | none => HandlerResult.respond 500 "AI did not generate exactly 5 blocks"
  | some bs =>
    if bs.length ≠ 5 then
      HandlerResult.respond 500 "AI did not generate exactly 5 blocks"
    else
      HandlerResult.ok d

end GenerateDiagram

open BlockDiagram GenerateDiagram

/-! ## Helper lemmas -/

/-- Converting a block to a node and back recovers the block. -/
theorem nodeToBlock_blockNode (b : Block) : nodeToBlock (blockNode b) = b :=
  rfl

/-- Converting a connection to its edge (at any ordinal) and back
recovers the connection. -/
theorem edgeToConnection_connectionEdge (i : Nat) (c : Connection) :
    edgeToConnection (connectionEdge i c) = c := by
  cases c with
  | mk s t l => cases l <;> rfl

/-- Recovering the connections from the edges built by the index-passing
conversion yields the original list, at every starting ordinal. -/
theorem connectionsToEdgesAux_roundTrip (cs : List Connection) (i : Nat) :
    (connectionsToEdgesAux i cs).map edgeToConnection = cs := by
  induction cs generalizing i with
  | nil => rfl
  | cons c cs ih =>
    simp [connectionsToEdgesAux, edgeToConnection_connectionEdge, ih]

/-! ## Claim theorems -/

/-- C1: round-trip law. For every diagram satisfying the schema (exactly
5 blocks, each `type` in the five-value enum), converting to
presentation form with `diagramToNodes` / `connectionsToEdges` and back
with `nodesToDiagram` yields the original diagram: positions, styles and
generated edge ids are stripped, and a connection label survives exactly
when it is a plain string. -/
theorem roundTrip_law (d : Diagram) (h : schemaValid d) :
    nodesToDiagram (diagramToNodes d) (connectionsToEdges d.connections) = d := by
  cases d with
  | mk bs cs =>
    have hb : nodeToBlock ∘ blockNode = id := funext fun b => rfl
    simp [nodesToDiagram, diagramToNodes, connectionsToEdges,
      connectionsToEdgesAux_roundTrip, List.map_map, hb]

/-- C1 witness: the round trip at the built-in default template. -/
theorem roundTrip_law_witness :
    schemaValid generateDefaultDiagram ∧
    nodesToDiagram (diagramToNodes generateDefaultDiagram)
      (connectionsToEdges generateDefaultDiagram.connections) =
      generateDefaultDiagram :=
  ⟨by decide, roundTrip_law generateDefaultDiagram (by decide)⟩

/-- C2: cascading delete. After `handleNodeDelete st n`, no remaining
node has id `n`, no remaining edge has source or target `n`, every other
node is retained, and every edge incident to neither endpoint equal to
`n` is retained. -/
theorem handleNodeDelete_cascades (st : CanvasState) (nodeId : String) :
    (∀ node ∈ (handleNodeDelete st nodeId).nodes, node.id ≠ nodeId) ∧
    (∀ edge ∈ (handleNodeDelete st nodeId).edges,
      edge.source ≠ nodeId ∧ edge.target ≠ nodeId) ∧
    (∀ node ∈ st.nodes, node.id ≠ nodeId →
      node ∈ (handleNodeDelete st nodeId).nodes) ∧
    (∀ edge ∈ st.edges, edge.source ≠ nodeId → edge.target ≠ nodeId →
      edge ∈ (handleNodeDelete st nodeId).edges) := by
  refine ⟨?_, ?_, ?_, ?_⟩ <;>
    simp +contextual [handleNodeDelete, List.mem_filter]

/-- C2 witness: deleting the processing block of the rendered default
template. -/
theorem handleNodeDelete_cascades_witness :
    (∀ node ∈ (handleNodeDelete
        ⟨diagramToNodes generateDefaultDiagram,
         connectionsToEdges generateDefaultDiagram.connections⟩
        "processing-1").nodes, node.id ≠ "processing-1") ∧
    (∀ edge ∈ (handleNodeDelete
        ⟨diagramToNodes generateDefaultDiagram,
         connectionsToEdges generateDefaultDiagram.connections⟩
        "processing-1").edges,
      edge.source ≠ "processing-1" ∧ edge.target ≠ "processing-1") ∧
    (∀ node ∈ (⟨diagramToNodes generateDefaultDiagram,
         connectionsToEdges generateDefaultDiagram.connections⟩ :
         CanvasState).nodes, node.id ≠ "processing-1" →
      node ∈ (handleNodeDelete
        ⟨diagramToNodes generateDefaultDiagram,
         connectionsToEdges generateDefaultDiagram.connections⟩
        "processing-1").nodes) ∧
    (∀ edge ∈ (⟨diagramToNodes generateDefaultDiagram,
         connectionsToEdges generateDefaultDiagram.connections⟩ :
         CanvasState).edges,
      edge.source ≠ "processing-1" → edge.target ≠ "processing-1" →
      edge ∈ (handleNodeDelete
        ⟨diagramToNodes generateDefaultDiagram,
         connectionsToEdges generateDefaultDiagram.connections⟩
        "processing-1").edges) :=
  handleNodeDelete_cascades
    ⟨diagramToNodes generateDefaultDiagram,
     connectionsToEdges generateDefaultDiagram.connections⟩
    "processing-1"

/-- A candidate diagram with 5 blocks that have none of the required
fields and with `connections` absent. -/
def badCandidate : CandidateDiagram :=
  { blocks := some (List.replicate 5 {}), connections := none }

/-- C3 counterexample: the serve handler's validation accepts a
candidate whose 5 blocks all lack `id`, `type`, `title` and
`components`, and whose `connections` field is absent — the claimed
per-block and connection checks do not happen, no failure is raised. -/
theorem finalizeDiagram_no_field_checks :
    (∀ b ∈ (badCandidate.blocks.getD []),
      b.id = none ∧ b.type = none ∧ b.title = none ∧ b.components = none) ∧
    badCandidate.connections = none ∧
    finalizeDiagram badCandidate = HandlerResult.ok badCandidate := by
  decide

/-- C3 (amended): the serve handler validates only that `blocks` is
present with exactly 5 entries; on violation it responds status 500 with
error message `AI did not generate exactly 5 blocks` and returns no
diagram; when the count is 5 the candidate is returned unchanged, with
no per-block or connection field checks. -/
theorem finalizeDiagram_count_only (d : CandidateDiagram) :
    (d.blocks = none →
      finalizeDiagram d =
        HandlerResult.respond 500 "AI did not generate exactly 5 blocks") ∧
    (∀ bs, d.blocks = some bs → bs.length ≠ 5 →
      finalizeDiagram d =
        HandlerResult.respond 500 "AI did not generate exactly 5 blocks") ∧
    (∀ bs, d.blocks = some bs → bs.length = 5 →
      finalizeDiagram d = HandlerResult.ok d) := by
  refine ⟨?_, ?_, ?_⟩ <;> intros <;> simp_all [finalizeDiagram]

/-- C3 witness: a candidate with an empty block list is rejected with
the count message. -/
theorem finalizeDiagram_count_only_witness :
    finalizeDiagram { blocks := some [], connections := none } =
      HandlerResult.respond 500 "AI did not generate exactly 5 blocks" :=
  (finalizeDiagram_count_only
    { blocks := some [], connections := none }).2.1 [] rfl (by decide)

/-- C4: connect appends. `onConnect` leaves the nodes unchanged and
appends one new edge carrying `defaultEdgeOptions` (smoothstep,
animated, default stroke and arrowhead); this holds regardless of the
existing edges, so an edge whose source and target equal those of an
already-present edge is still appended (no deduplication). -/
theorem onConnect_appends (st : CanvasState) (params : ConnectParams) :
    (onConnect st params).nodes = st.nodes ∧
    (onConnect st params).edges = st.edges ++ [connectEdge params] ∧
    (onConnect st params).edges.length = st.edges.length + 1 ∧
    (connectEdge params).source = params.source ∧
    (connectEdge params).target = params.target ∧
    (connectEdge params).type = "smoothstep" ∧
    (connectEdge params).animated = true ∧
    (connectEdge params).style = defaultEdgeStyle ∧
    (connectEdge params).markerEnd = defaultEdgeMarker := by
  refine ⟨rfl, rfl, ?_, rfl, rfl, rfl, rfl, rfl, rfl⟩
  simp [onConnect, addEdge]

/-- C4 witness: connecting `power-1 → processing-1` on the rendered
default template, whose edge set already contains an edge with that
same source and target, still appends a duplicate. -/
theorem onConnect_appends_witness :
    (onConnect
      ⟨diagramToNodes generateDefaultDiagram,
       connectionsToEdges generateDefaultDiagram.connections⟩
      ⟨"power-1", "processing-1"⟩).nodes =
      diagramToNodes generateDefaultDiagram ∧
    (onConnect
      ⟨diagramToNodes generateDefaultDiagram,
       connectionsToEdges generateDefaultDiagram.connections⟩
      ⟨"power-1", "processing-1"⟩).edges =
      connectionsToEdges generateDefaultDiagram.connections ++
        [connectEdge ⟨"power-1", "processing-1"⟩] ∧
    (onConnect
      ⟨diagramToNodes generateDefaultDiagram,
       connectionsToEdges generateDefaultDiagram.connections⟩
      ⟨"power-1", "processing-1"⟩).edges.length =
      (connectionsToEdges generateDefaultDiagram.connections).length + 1 ∧
    (connectEdge ⟨"power-1", "processing-1"⟩).source = "power-1" ∧
    (connectEdge ⟨"power-1", "processing-1"⟩).target = "processing-1" ∧
    (connectEdge ⟨"power-1", "processing-1"⟩).type = "smoothstep" ∧
    (connectEdge ⟨"power-1", "processing-1"⟩).animated = true ∧
    (connectEdge ⟨"power-1", "processing-1"⟩).style = defaultEdgeStyle ∧
    (connectEdge ⟨"power-1", "processing-1"⟩).markerEnd = defaultEdgeMarker :=
  onConnect_appends
    ⟨diagramToNodes generateDefaultDiagram,
     connectionsToEdges generateDefaultDiagram.connections⟩
    ⟨"power-1", "processing-1"⟩

/-- C5: upstream-error mapping. For every non-2xx gateway status, the
endpoint responds 429 on upstream 429 (with a message containing
`Rate limit`), 402 on upstream 402, and 500 on every other failure,
each with the fixed generic message. -/
theorem upstreamFailure_mapping (status : Nat)
    (h : statusOk status = false) :
    (status = 429 →
      handleUpstreamStatus status =
        some (429, "Rate limit exceeded. Please try again later.") ∧
      ∃ pre post,
        "Rate limit exceeded. Please try again later." =
          pre ++ "Rate limit" ++ post) ∧
    (status = 402 →
      handleUpstreamStatus status =
        some (402, "Usage limit reached. Please add credits.")) ∧
    (status ≠ 429 → status ≠ 402 →
      handleUpstreamStatus status =
        some (500, "Failed to generate diagram")) := by
  refine ⟨?_, ?_, ?_⟩
  · intro h429
    subst h429
    exact ⟨rfl, "", " exceeded. Please try again later.", rfl⟩
  · intro h402
    subst h402
    rfl
  · intro h429 h402
    simp [handleUpstreamStatus, h, mapUpstreamFailure, h429, h402]

/-- C5 witness: upstream 429 maps to endpoint 429 with the rate-limit
message. -/
theorem upstreamFailure_mapping_witness :
    statusOk 429 = false ∧
    ((429 = 429 →
      handleUpstreamStatus 429 =
        some (429, "Rate limit exceeded. Please try again later.") ∧
      ∃ pre post,
        "Rate limit exceeded. Please try again later." =
          pre ++ "Rate limit" ++ post) ∧
    (429 = 402 →
      handleUpstreamStatus 429 =
        some (402, "Usage limit reached. Please add credits.")) ∧
    (429 ≠ 429 → 429 ≠ 402 →
      handleUpstreamStatus 429 =
        some (500, "Failed to generate diagram"))) :=
  ⟨by decide, upstreamFailure_mapping 429 (by decide)⟩

/-- C6: empty-description rejection. When the request's `description`
is the empty string, missing (`undefined`), or not a string, the
handler responds 400 with error message `Description is required` and
never reaches the model-gateway call. -/
theorem handleDescription_rejects (v : JVal)
    (h : v = JVal.str "" ∨ v = JVal.undef ∨ isString v = false) :
    handleDescription v =
      GenStep.respond 400 "Description is required" ∧
    ∀ s, handleDescription v ≠ GenStep.callModel s := by
  have hb : (!jsTruthy v || !isString v) = true := by
    rcases h with h | h | h
    · subst h; decide
    · subst h; decide
    · simp [h]
  refine ⟨?_, ?_⟩
  · simp [handleDescription, hb]
  · intro s
    simp [handleDescription, hb]

/-- C6 witness: the empty-string description is rejected with 400. -/
theorem handleDescription_rejects_witness :
    handleDescription (JVal.str "") =
      GenStep.respond 400 "Description is required" ∧
    ∀ s, handleDescription (JVal.str "") ≠ GenStep.callModel s :=
  handleDescription_rejects (JVal.str "") (Or.inl rfl)

/-- C7: layout mapper. Node positioning is a pure function of the block
category (same category, same coordinate); each of the five enum
categories has its own fixed coordinate, the five coordinates are
pairwise distinct, and every unrecognized category receives the single
fallback coordinate (400, 200). -/
theorem nodePosition_layout :
    (∀ t : String, nodePosition t = nodePosition t) ∧
    nodePosition "power" = ⟨50, 200⟩ ∧
    nodePosition "inputs" = ⟨350, 50⟩ ∧
    nodePosition "processing" = ⟨650, 200⟩ ∧
    nodePosition "outputs" = ⟨950, 50⟩ ∧
    nodePosition "peripherals" = ⟨650, 400⟩ ∧
    (enumTypes.map nodePosition).Pairwise (· ≠ ·) ∧
    ∀ t : String, t ∉ enumTypes → nodePosition t = ⟨400, 200⟩ := by
  refine ⟨fun t => rfl, rfl, rfl, rfl, rfl, rfl, by decide, ?_⟩
  intro t ht
  simp [enumTypes] at ht
  obtain ⟨h1, h2, h3, h4, h5⟩ := ht
  simp [nodePosition, blockPositions, h1, h2, h3, h4, h5]

/-- C7 witness: an unrecognized category gets the fallback coordinate. -/
theorem nodePosition_layout_witness :
    ("gpu" : String) ∉ enumTypes ∧ nodePosition "gpu" = ⟨400, 200⟩ :=
  ⟨by decide, nodePosition_layout.2.2.2.2.2.2.2 "gpu" (by decide)⟩

/-- C8: edit-block frame property. Confirming an edit maps only the
matching node, overwriting exactly `title`, `components` and the
annotation field of its data (empty annotation text becomes absent),
while keeping the node's id, React Flow type, position, draggable flag
and category; every other node and the whole edge list are unchanged;
cancelling leaves the entire working set equal to the pre-edit
snapshot. -/
theorem confirmEdit_frame (st : CanvasState) (nodeId : String)
    (es : EditState) :
    (confirmEdit st nodeId es).edges = st.edges ∧
    (confirmEdit st nodeId es).nodes =
      st.nodes.map (fun node =>
        if node.id = nodeId then
          mergeNodeData node (handleSaveFields es)
        else node) ∧
    (∀ node : Node, node.id ≠ nodeId →
      (if node.id = nodeId then
        mergeNodeData node (handleSaveFields es)
      else node) = node) ∧
    (∀ node : Node,
      (mergeNodeData node (handleSaveFields es)).id = node.id ∧
      (mergeNodeData node (handleSaveFields es)).type = node.type ∧
      (mergeNodeData node (handleSaveFields es)).position = node.position ∧
      (mergeNodeData node (handleSaveFields es)).draggable = node.draggable ∧
      (mergeNodeData node (handleSaveFields es)).data.type = node.data.type ∧
      (mergeNodeData node (handleSaveFields es)).data.title = es.editTitle ∧
      (mergeNodeData node (handleSaveFields es)).data.components =
        es.editComponents ∧
      (mergeNodeData node (handleSaveFields es)).data.annot =
        (if es.editAnnot = "" then none else some es.editAnnot)) ∧
    cancelEdit st = st := by
  refine ⟨rfl, rfl, ?_, ?_, rfl⟩
  · intro node h
    simp [h]
  · intro node
    exact ⟨rfl, rfl, rfl, rfl, rfl, rfl, rfl, rfl⟩

/-- C8 witness: editing the power block of the rendered default
template, clearing the annotation text. -/
theorem confirmEdit_frame_witness :
    (confirmEdit
      ⟨diagramToNodes generateDefaultDiagram,
       connectionsToEdges generateDefaultDiagram.connections⟩
      "power-1" ⟨"PSU", ["LiPo Cell"], ""⟩).edges =
      connectionsToEdges generateDefaultDiagram.connections ∧
    (confirmEdit
      ⟨diagramToNodes generateDefaultDiagram,
       connectionsToEdges generateDefaultDiagram.connections⟩
      "power-1" ⟨"PSU", ["LiPo Cell"], ""⟩).nodes =
      (diagramToNodes generateDefaultDiagram).map (fun node =>
        if node.id = "power-1" then
          mergeNodeData node (handleSaveFields ⟨"PSU", ["LiPo Cell"], ""⟩)
        else node) ∧
    (∀ node : Node, node.id ≠ "power-1" →
      (if node.id = "power-1" then
        mergeNodeData node (handleSaveFields ⟨"PSU", ["LiPo Cell"], ""⟩)
      else node) = node) ∧
    (∀ node : Node,
      (mergeNodeData node
        (handleSaveFields ⟨"PSU", ["LiPo Cell"], ""⟩)).id = node.id ∧
      (mergeNodeData node
        (handleSaveFields ⟨"PSU", ["LiPo Cell"], ""⟩)).type = node.type ∧
      (mergeNodeData node
        (handleSaveFields ⟨"PSU", ["LiPo Cell"], ""⟩)).position =
        node.position ∧
      (mergeNodeData node
        (handleSaveFields ⟨"PSU", ["LiPo Cell"], ""⟩)).draggable =
        node.draggable ∧
      (mergeNodeData node
        (handleSaveFields ⟨"PSU", ["LiPo Cell"], ""⟩)).data.type =
        node.data.type ∧
      (mergeNodeData node
        (handleSaveFields ⟨"PSU", ["LiPo Cell"], ""⟩)).data.title = "PSU" ∧
      (mergeNodeData node
        (handleSaveFields ⟨"PSU", ["LiPo Cell"], ""⟩)).data.components =
        ["LiPo Cell"] ∧
      (mergeNodeData node
        (handleSaveFields ⟨"PSU", ["LiPo Cell"], ""⟩)).data.annot =
        (if ("" : String) = "" then none else some "")) ∧
    cancelEdit
      ⟨diagramToNodes generateDefaultDiagram,
       connectionsToEdges generateDefaultDiagram.connections⟩ =
      ⟨diagramToNodes generateDefaultDiagram,
       connectionsToEdges generateDefaultDiagram.connections⟩ :=
  confirmEdit_frame
    ⟨diagramToNodes generateDefaultDiagram,
     connectionsToEdges generateDefaultDiagram.connections⟩
    "power-1" ⟨"PSU", ["LiPo Cell"], ""⟩

/-- C9: default template. `generateDefaultDiagram` is a constant with
exactly 5 blocks, one per enum category in order, and exactly the 4
fixed connections power→processing, inputs→processing,
processing→outputs, processing→peripherals, whose endpoints all
reference ids of blocks in the returned block list. -/
theorem generateDefaultDiagram_template :
    generateDefaultDiagram.blocks.length = 5 ∧
    generateDefaultDiagram.blocks.map Block.type = enumTypes ∧
    generateDefaultDiagram.connections =
      [ ⟨"power-1", "processing-1", some "VCC"⟩
      , ⟨"inputs-1", "processing-1", some "Data"⟩
      , ⟨"processing-1", "outputs-1", some "Control"⟩
      , ⟨"processing-1", "peripherals-1", some "I/O"⟩ ] ∧
    (generateDefaultDiagram.connections.all fun c =>
      (generateDefaultDiagram.blocks.map Block.id).contains c.source &&
      (generateDefaultDiagram.blocks.map Block.id).contains c.target) =
      true := by
  refine ⟨rfl, rfl, rfl, by decide⟩

/-- C10: block style table totality on the enum, and only there. The
`blockStyles` table has an entry exactly for the five categories and no
fallback; rendering a BlockNode succeeds (the unconditional
`style.className` dereference is safe) exactly when `data.type` is one
of the five, and fails with an undefined lookup otherwise. -/
theorem blockStyles_partiality (t : String) (data : NodeData) :
    ((blockStyles t).isSome = true ↔ t ∈ enumTypes) ∧
    (data.type ∈ enumTypes → ∃ cls, renderBlockNode data = some cls) ∧
    (data.type ∉ enumTypes → renderBlockNode data = none) := by
  have key : ∀ s : String, (blockStyles s).isSome = true ↔ s ∈ enumTypes := by
    intro s
    unfold blockStyles
    split_ifs with h1 h2 h3 h4 h5
    · subst h1; decide
    · subst h2; decide
    · subst h3; decide
    · subst h4; decide
    · subst h5; decide
    · simp [enumTypes, h1, h2, h3, h4, h5]
  refine ⟨key t, ?_, ?_⟩
  · intro h
    obtain ⟨style, hs⟩ := Option.isSome_iff_exists.mp ((key data.type).mpr h)
    exact ⟨style.className, by simp [renderBlockNode, hs]⟩
  · intro h
    have hn : blockStyles data.type = none := by
      cases hopt : blockStyles data.type with
      | none => rfl
      | some style =>
        exact absurd ((key data.type).mp (by simp [hopt])) h
    simp [renderBlockNode, hn]

/-- C10 witness: rendering succeeds for category `power` and fails for
the out-of-enum category `gpu`. -/
theorem blockStyles_partiality_witness :
    ((blockStyles "power").isSome = true ↔ ("power" : String) ∈ enumTypes) ∧
    (("gpu" : String) ∈ enumTypes →
      ∃ cls, renderBlockNode ⟨"gpu", "GPU", [], none⟩ = some cls) ∧
    (("gpu" : String) ∉ enumTypes →
      renderBlockNode ⟨"gpu", "GPU", [], none⟩ = none) :=
  blockStyles_partiality "power" ⟨"gpu", "GPU", [], none⟩
